import Mathlib

/-!
Verification of the TradingView webhook trading bot (`app.py`).

The development shallowly embeds the demo-mode (simulated) trading pipeline:
the structured-payload signal extraction (`process_tradingview_signal`, dict
branch), the simulated balance/trade bookkeeping (`execute_trade`,
`get_balance`), the profit accounting (`calculate_profit`) and the per-signal
body of `run_trading_loop` as a step function on an explicit engine state.

Numeric values (prices, amounts, balances, profit) are modelled as exact
rationals; Python's float arithmetic is treated as exact real arithmetic,
which is the arithmetic in which the specification states its properties.
Python truthiness tests on optional numbers (`if self.last_sold_amount:`,
`if last_sell_price:`) are modelled by `truthy`: `None` and `0` are falsy.

The demo balance dict always holds exactly the base- and quote-currency keys
(created in `__init__` and only those two keys are ever written), so the
engine-side balances are a two-field structure; the generic dict lookup of
`get_balance` (`self.demo_balance.get(currency, 0)`) is modelled separately
for the balance-lookup claims.
-/

/-- Trade side, the `side` argument of `execute_trade` (`'buy'`/`'sell'`). -/
inductive Side where
  | buy
  | sell
deriving DecidableEq

/-- A record appended to `self.trades` by `execute_trade` in demo mode:
`{'side': ..., 'price': ..., 'amount': ..., 'cost': ...}` (timestamp and the
constant-zero fee are omitted; they carry no information for the claims). -/
structure Trade where
  side : Side
  price : ℚ
  amount : ℚ
  cost : ℚ
deriving DecidableEq

/-- The simulated balances `self.demo_balance`, with one field per currency of
the trading pair (base = `XRP`, quote = `USDT` for `XRP/USDT`). -/
structure Balances where
  base : ℚ
  quote : ℚ
deriving DecidableEq

/-- The mutable engine state of `run_trading_loop`: the instance attributes
`self.last_action`, `self.last_sold_amount`, `self.demo_balance`,
`self.total_profit`, `self.trades`, together with the loop-local variable
`last_sell_price` (which persists across loop iterations). -/
structure BotState where
  lastAction : Side
  lastSoldAmount : Option ℚ
  lastSellPrice : Option ℚ
  balances : Balances
  totalProfit : ℚ
  trades : List Trade
deriving DecidableEq

/-- Python truthiness of an optional number: `None` and `0` are falsy,
any other number is truthy. -/
def truthy (x : Option ℚ) : Bool :=
  match x with
  | none => false
  | some v => if v = 0 then false else true

/-- Demo-mode branch of `execute_trade(side, amount, price)`.
Returns the order result (`None` on an insufficient balance) together with
the updated balances and trades list (the method mutates `self`). -/
def execute_trade (side : Side) (amount price : ℚ) (bal : Balances)
    (trades : List Trade) : Option Trade × Balances × List Trade :=
  match side with
  | Side.buy =>
      let cost := amount * price
      if cost > bal.quote then
        (none, bal, trades)
      else
        let t : Trade := ⟨Side.buy, price, amount, cost⟩
        (some t, ⟨bal.base + amount, bal.quote - cost⟩, trades ++ [t])
  | Side.sell =>
      if amount > bal.base then
        (none, bal, trades)
      else
        let revenue := amount * price
        let t : Trade := ⟨Side.sell, price, amount, revenue⟩
        (some t, ⟨bal.base - amount, bal.quote + revenue⟩, trades ++ [t])

/-- The pure profit formula of `calculate_profit(sell_price, buy_price,
amount)`: sell revenue minus buy-back cost. -/
def calculate_profit (sell_price buy_price amount : ℚ) : ℚ :=
  let sell_revenue := amount * sell_price
  let buy_cost := amount * buy_price
  sell_revenue - buy_cost

/-- The state effect of the `calculate_profit` method: it accumulates the
computed profit into `self.total_profit` and returns the profit. -/
def calculate_profit_run (s : BotState) (sell_price buy_price amount : ℚ) :
    BotState × ℚ :=
  let profit := calculate_profit sell_price buy_price amount
  ({ s with totalProfit := s.totalProfit + profit }, profit)

/-- Per-signal outcome of one iteration of `run_trading_loop`, used to name
which branch of the loop body was taken. -/
inductive Outcome where
  | priceUnavailable
  | bought
  | insufficientQuote
  | noPrevAmount
  | buyFailed
  | sold
  | insufficientBase
  | sellFailed
  | ignored
deriving DecidableEq

/-- Actionable BUY branch of the loop body (`signal_type == "BUY" and
self.last_action == "SELL"`): buy back `self.last_sold_amount` (Python
truthiness), check the quote balance against the cost, execute the trade, set
`last_action = "BUY"`, and compute profit when `last_sell_price` is truthy. -/
def step_buy (s : BotState) (price : ℚ) : BotState × Outcome :=
  if truthy s.lastSoldAmount then
    let buy_amount := s.lastSoldAmount.getD 0
    let buy_cost := buy_amount * price
    if s.balances.quote ≥ buy_cost then
      match execute_trade Side.buy buy_amount price s.balances s.trades with
      | (some _, bal2, trades2) =>
          let s2 : BotState :=
            { s with balances := bal2, trades := trades2, lastAction := Side.buy }
          if truthy s.lastSellPrice then
            ((calculate_profit_run s2 (s.lastSellPrice.getD 0) price buy_amount).1,
              Outcome.bought)
          else (s2, Outcome.bought)
      | (none, bal2, trades2) =>
          ({ s with balances := bal2, trades := trades2 }, Outcome.buyFailed)
    else (s, Outcome.insufficientQuote)
  else (s, Outcome.noPrevAmount)

/-- Actionable SELL branch of the loop body (`signal_type == "SELL" and
self.last_action == "BUY"`): sell `min(self.fixed_amount, base_balance)`; on
success set `last_action = "SELL"`, record `last_sold_amount` and
`last_sell_price`. -/
def step_sell (fixed_amount : ℚ) (s : BotState) (price : ℚ) : BotState × Outcome :=
  let sell_amount := min fixed_amount s.balances.base
  if sell_amount > 0 then
    match execute_trade Side.sell sell_amount price s.balances s.trades with
    | (some _, bal2, trades2) =>
        ({ s with balances := bal2, trades := trades2, lastAction := Side.sell,
                  lastSoldAmount := some sell_amount,
                  lastSellPrice := some price }, Outcome.sold)
    | (none, bal2, trades2) =>
        ({ s with balances := bal2, trades := trades2 }, Outcome.sellFailed)
  else (s, Outcome.insufficientBase)

/-- One iteration of the body of `run_trading_loop` for a dequeued signal, in
demo mode. `signal_type` is the string stored in the queue entry;
`current_price` is the result of `get_current_price` (`none` models a failed
price fetch, which the loop skips with `continue`). In demo mode the
`get_balance` calls read `self.demo_balance`, i.e. `s.balances`. -/
def engine_step (fixed_amount : ℚ) (s : BotState) (signal_type : String)
    (current_price : Option ℚ) : BotState × Outcome :=
  match current_price with
  | none => (s, Outcome.priceUnavailable)
  | some price =>
      if signal_type = "BUY" ∧ s.lastAction = Side.sell then
        step_buy s price
      else if signal_type = "SELL" ∧ s.lastAction = Side.buy then
        step_sell fixed_amount s price
      else (s, Outcome.ignored)

/-- Run the trading loop over a list of dequeued signals (each paired with the
price fetched while processing it), collecting the per-signal outcomes. Each
queue entry is dequeued and processed exactly once, in order. -/
def engine_run (fixed_amount : ℚ) (s : BotState) :
    List (String × Option ℚ) → BotState × List Outcome
  | [] => (s, [])
  | (sig, p) :: rest =>
      let r := engine_step fixed_amount s sig p
      let rr := engine_run fixed_amount r.1 rest
      (rr.1, r.2 :: rr.2)

/-- The engine state built by `__init__` in demo mode: `last_action = "BUY"`,
no recorded sell, balances `{base: fixed_amount, quote: 0}`, zero profit,
empty trade history. -/
def init_state (fixed_amount : ℚ) : BotState :=
  { lastAction := Side.buy
    lastSoldAmount := none
    lastSellPrice := none
    balances := ⟨fixed_amount, 0⟩
    totalProfit := 0
    trades := [] }

/-- Number of executed trades of a given side in the trade history. -/
def countSide (side : Side) (ts : List Trade) : Nat :=
  (ts.filter fun t => t.side == side).length

/-- A map-like (dict) payload as seen by `process_tradingview_signal`:
the two fields it inspects, each possibly absent. -/
structure DictPayload where
  action : Option String
  signal : Option String

/-- Python's `str.upper()`: uppercase every character (Python's method is
Unicode-aware; on the ASCII signal tokens at issue it coincides with
per-character uppercasing). -/
def py_upper (s : String) : String := ⟨s.data.map Char.toUpper⟩

/-- The dict branch of `process_tradingview_signal`:
`signal_type = data.get('action', '').upper()`, falling back to
`data.get('signal', '').upper()` when empty; an empty result is rejected
(`return False`), otherwise the string is enqueued verbatim as the signal
type. -/
def process_dict_signal (d : DictPayload) : Option String :=
  let signal_type := py_upper (d.action.getD "")
  let signal_type :=
    if signal_type = "" then py_upper (d.signal.getD "") else signal_type
  if signal_type = "" then none else some signal_type

/-- Lookup in a Python dict modelled as an association list (first match). -/
def dict_get (m : List (String × ℚ)) (k : String) : Option ℚ :=
  match m with
  | [] => none
  | (k2, v) :: rest => if k2 = k then some v else dict_get rest k

/-- Demo-mode branch of `get_balance`: `self.demo_balance.get(currency, 0)`. -/
def get_balance_demo (demo_balance : List (String × ℚ)) (currency : String) : ℚ :=
  (dict_get demo_balance currency).getD 0

/-- Real-mode branch of `get_balance`: returns the fetched free balance, or
`0` when `fetch_balance` raises (`none` models the exception path). -/
def get_balance_real (fetch_result : Option ℚ) : ℚ :=
  fetch_result.getD 0

/-- Fold `execute_trade` over a list of (side, amount, price) requests,
threading the simulated balances and the trade history. -/
def exec_trades (bal : Balances) (ts : List Trade) :
    List (Side × ℚ × ℚ) → Balances × List Trade
  | [] => (bal, ts)
  | (side, amount, price) :: rest =>
      let r := execute_trade side amount price bal ts
      exec_trades r.2.1 r.2.2 rest

/-! ### Normal forms of the embedded operations -/

/-- Unfolding of the demo-mode buy branch of `execute_trade`. -/
lemma execute_trade_buy (a p : ℚ) (bal : Balances) (ts : List Trade) :
    execute_trade Side.buy a p bal ts =
      if a * p > bal.quote then (none, bal, ts)
      else (some ⟨Side.buy, p, a, a * p⟩, ⟨bal.base + a, bal.quote - a * p⟩,
            ts ++ [⟨Side.buy, p, a, a * p⟩]) := rfl

/-- Unfolding of the demo-mode sell branch of `execute_trade`. -/
lemma execute_trade_sell (a p : ℚ) (bal : Balances) (ts : List Trade) :
    execute_trade Side.sell a p bal ts =
      if a > bal.base then (none, bal, ts)
      else (some ⟨Side.sell, p, a, a * p⟩, ⟨bal.base - a, bal.quote + a * p⟩,
            ts ++ [⟨Side.sell, p, a, a * p⟩]) := rfl

/-- Closed form of the actionable BUY branch: the inner `execute_trade` check
(`cost > quote`) is exactly the negation of the loop's own check
(`quote_balance >= buy_cost`), so in demo mode the trade never fails once the
loop-level check passed. -/
lemma step_buy_eq (s : BotState) (price : ℚ) :
    step_buy s price =
      if truthy s.lastSoldAmount then
        if s.balances.quote ≥ s.lastSoldAmount.getD 0 * price then
          ({ s with
              balances := ⟨s.balances.base + s.lastSoldAmount.getD 0,
                           s.balances.quote - s.lastSoldAmount.getD 0 * price⟩,
              trades := s.trades ++ [⟨Side.buy, price, s.lastSoldAmount.getD 0,
                                      s.lastSoldAmount.getD 0 * price⟩],
              lastAction := Side.buy,
              totalProfit := s.totalProfit +
                (if truthy s.lastSellPrice then
                    calculate_profit (s.lastSellPrice.getD 0) price (s.lastSoldAmount.getD 0)
                  else 0) }, Outcome.bought)
        else (s, Outcome.insufficientQuote)
      else (s, Outcome.noPrevAmount) := by
  by_cases ht : truthy s.lastSoldAmount = true
  · by_cases hq : s.balances.quote ≥ s.lastSoldAmount.getD 0 * price
    · have hlt : ¬s.lastSoldAmount.getD 0 * price > s.balances.quote := not_lt.mpr hq
      by_cases hp : truthy s.lastSellPrice = true
      · simp [step_buy, execute_trade_buy, ht, hq, hlt, hp, calculate_profit_run]
      · simp [step_buy, execute_trade_buy, ht, hq, hlt, hp]
    · simp [step_buy, ht, hq]
  · simp [step_buy, ht]

/-- Closed form of the actionable SELL branch: the amount sold is
`min fixed_amount base_balance`, which never exceeds the base balance, so in
demo mode the trade never fails once the amount is positive. -/
lemma step_sell_eq (f : ℚ) (s : BotState) (price : ℚ) :
    step_sell f s price =
      if 0 < min f s.balances.base then
        ({ s with
            balances := ⟨s.balances.base - min f s.balances.base,
                         s.balances.quote + min f s.balances.base * price⟩,
            trades := s.trades ++ [⟨Side.sell, price, min f s.balances.base,
                                    min f s.balances.base * price⟩],
            lastAction := Side.sell,
            lastSoldAmount := some (min f s.balances.base),
            lastSellPrice := some price }, Outcome.sold)
      else (s, Outcome.insufficientBase) := by
  have hle : ¬min f s.balances.base > s.balances.base :=
    not_lt.mpr (min_le_right f s.balances.base)
  by_cases hp : 0 < min f s.balances.base
  · simp [step_sell, execute_trade_sell, hp, hle]
  · simp [step_sell, hp]

/-- Unfolding of `engine_step` on an available price. -/
lemma engine_step_some (f : ℚ) (s : BotState) (sig : String) (price : ℚ) :
    engine_step f s sig (some price) =
      if sig = "BUY" ∧ s.lastAction = Side.sell then step_buy s price
      else if sig = "SELL" ∧ s.lastAction = Side.buy then step_sell f s price
      else (s, Outcome.ignored) := rfl

/-- Unfolding of `engine_step` on a failed price fetch. -/
lemma engine_step_none (f : ℚ) (s : BotState) (sig : String) :
    engine_step f s sig none = (s, Outcome.priceUnavailable) := rfl

/-- Unfolding of `engine_run` on a cons cell. -/
lemma engine_run_cons (f : ℚ) (s : BotState) (sig : String) (p : Option ℚ)
    (rest : List (String × Option ℚ)) :
    engine_run f s ((sig, p) :: rest) =
      ((engine_run f (engine_step f s sig p).1 rest).1,
        (engine_step f s sig p).2 :: (engine_run f (engine_step f s sig p).1 rest).2) := rfl

/-- A `"BUY"` signal is actionable exactly while `last_action == "SELL"`. -/
lemma engine_step_buy_sig (f : ℚ) (s : BotState) (price : ℚ)
    (h : s.lastAction = Side.sell) :
    engine_step f s "BUY" (some price) = step_buy s price := by
  simp [engine_step_some, h]

/-- A `"SELL"` signal is actionable exactly while `last_action == "BUY"`. -/
lemma engine_step_sell_sig (f : ℚ) (s : BotState) (price : ℚ)
    (h : s.lastAction = Side.buy) :
    engine_step f s "SELL" (some price) = step_sell f s price := by
  simp [engine_step_some, h]

/-- A `"BUY"` signal while `last_action == "BUY"` is a duplicate: ignored. -/
lemma engine_step_buy_dup (f : ℚ) (s : BotState) (price : ℚ)
    (h : s.lastAction = Side.buy) :
    engine_step f s "BUY" (some price) = (s, Outcome.ignored) := by
  simp [engine_step_some, h]

/-- A `"SELL"` signal while `last_action == "SELL"` is a duplicate: ignored. -/
lemma engine_step_sell_dup (f : ℚ) (s : BotState) (price : ℚ)
    (h : s.lastAction = Side.sell) :
    engine_step f s "SELL" (some price) = (s, Outcome.ignored) := by
  simp [engine_step_some, h]

/-- A signal string other than `"BUY"`/`"SELL"` never matches either guard of
the loop body: the state is unchanged and no trade happens. -/
lemma engine_step_unknown_sig (f : ℚ) (s : BotState) (sig : String) (price : ℚ)
    (hb : sig ≠ "BUY") (hs : sig ≠ "SELL") :
    engine_step f s sig (some price) = (s, Outcome.ignored) := by
  simp [engine_step_some, hb, hs]

/-! ### Claim theorems -/

/-- C5: in simulated mode, `execute_trade` on a buy decreases the quote
balance by `amount*price` and increases the base balance by `amount`
(appending the trade record); a sell does the inverse; and when the required
balance is insufficient it returns `None` with balances and the trades list
both unchanged. -/
theorem claim_C5_execute_trade_sim (a p : ℚ) (bal : Balances) (ts : List Trade) :
    (a * p ≤ bal.quote →
      execute_trade Side.buy a p bal ts =
        (some ⟨Side.buy, p, a, a * p⟩, ⟨bal.base + a, bal.quote - a * p⟩,
          ts ++ [⟨Side.buy, p, a, a * p⟩])) ∧
    (bal.quote < a * p → execute_trade Side.buy a p bal ts = (none, bal, ts)) ∧
    (a ≤ bal.base →
      execute_trade Side.sell a p bal ts =
        (some ⟨Side.sell, p, a, a * p⟩, ⟨bal.base - a, bal.quote + a * p⟩,
          ts ++ [⟨Side.sell, p, a, a * p⟩])) ∧
    (bal.base < a → execute_trade Side.sell a p bal ts = (none, bal, ts)) := by
  refine ⟨fun h => ?_, fun h => ?_, fun h => ?_, fun h => ?_⟩
  · rw [execute_trade_buy, if_neg (not_lt.mpr h)]
  · rw [execute_trade_buy, if_pos h]
  · rw [execute_trade_sell, if_neg (not_lt.mpr h)]
  · rw [execute_trade_sell, if_pos h]

/-- Witness for C5 at a concrete input: buying 1 unit at price 2 with quote
balance 5 succeeds and moves the balances as stated. -/
theorem claim_C5_execute_trade_sim_witness :
    execute_trade Side.buy 1 2 ⟨0, 5⟩ [] =
      (some ⟨Side.buy, 2, 1, 1 * 2⟩, ⟨0 + 1, 5 - 1 * 2⟩, [] ++ [⟨Side.buy, 2, 1, 1 * 2⟩]) :=
  (claim_C5_execute_trade_sim 1 2 ⟨0, 5⟩ []).1 (by norm_num)

/-- C7 (amended): for all inputs, `calculate_profit` returns
`amount*sellPrice - amount*buyPrice`, depends on nothing but its three
inputs, and adds exactly that value to `totalProfit`; when the amount is
positive, the profit is positive exactly when the buy-back price is below
the sell price, and for `amount = 0` the profit is 0 regardless of the
prices. -/
theorem claim_C7_profit_formula (sell_price buy_price amount : ℚ)
    (s s2 : BotState) :
    calculate_profit sell_price buy_price amount =
      amount * sell_price - amount * buy_price ∧
    (calculate_profit_run s sell_price buy_price amount).2 =
      calculate_profit sell_price buy_price amount ∧
    (calculate_profit_run s2 sell_price buy_price amount).2 =
      (calculate_profit_run s sell_price buy_price amount).2 ∧
    (calculate_profit_run s sell_price buy_price amount).1.totalProfit =
      s.totalProfit + calculate_profit sell_price buy_price amount ∧
    (0 < amount →
      (0 < calculate_profit sell_price buy_price amount ↔
        buy_price < sell_price)) ∧
    calculate_profit sell_price buy_price 0 = 0 := by
  refine ⟨rfl, rfl, rfl, rfl, fun hamt => ?_, by norm_num [calculate_profit]⟩
  unfold calculate_profit
  rw [show amount * sell_price - amount * buy_price =
        amount * (sell_price - buy_price) by ring]
  rw [mul_pos_iff_of_pos_left hamt, sub_pos]

/-- Witness for C7 at a concrete input: amount 5, sold at 3, bought back
at 2. -/
theorem claim_C7_profit_formula_witness :
    (0 < calculate_profit 3 2 5 ↔ (2 : ℚ) < 3) :=
  (claim_C7_profit_formula 3 2 5 (init_state 0) (init_state 1)).2.2.2.2.1
    (by norm_num)

/-- C7 counterexample to the claim as stated ("for all inputs ... positive
exactly when the buy-back price is below the sell price"): at amount `0`,
the buy-back price `0` is below the sell price `1`, yet the profit is `0`,
not positive. -/
theorem claim_C7_counterexample :
    (0 : ℚ) < 1 ∧ calculate_profit 1 0 0 = 0 ∧ ¬0 < calculate_profit 1 0 0 := by
  norm_num [calculate_profit]

/-- One `execute_trade` call preserves non-negativity of both simulated
balances when the requested amount and price are non-negative. -/
lemma execute_trade_nonneg (side : Side) (a p : ℚ) (bal : Balances)
    (ts : List Trade) (ha : 0 ≤ a) (hp : 0 ≤ p)
    (hb : 0 ≤ bal.base) (hq : 0 ≤ bal.quote) :
    0 ≤ (execute_trade side a p bal ts).2.1.base ∧
      0 ≤ (execute_trade side a p bal ts).2.1.quote := by
  cases side
  · rw [execute_trade_buy]
    split_ifs with h
    · exact ⟨hb, hq⟩
    · push_neg at h
      exact ⟨add_nonneg hb ha, sub_nonneg.mpr h⟩
  · rw [execute_trade_sell]
    split_ifs with h
    · exact ⟨hb, hq⟩
    · push_neg at h
      exact ⟨sub_nonneg.mpr h, add_nonneg hq (mul_nonneg ha hp)⟩

/-- Folding `execute_trade` over any request list with non-negative amounts
and prices keeps both balances non-negative. -/
lemma exec_trades_nonneg (reqs : List (Side × ℚ × ℚ)) :
    ∀ bal ts, 0 ≤ bal.base → 0 ≤ bal.quote →
      (∀ r ∈ reqs, 0 ≤ r.2.1 ∧ 0 ≤ r.2.2) →
      0 ≤ (exec_trades bal ts reqs).1.base ∧
        0 ≤ (exec_trades bal ts reqs).1.quote := by
  induction reqs with
  | nil => exact fun bal ts hb hq _ => ⟨hb, hq⟩
  | cons r rest ih =>
      intro bal ts hb hq hall
      obtain ⟨side, a, p⟩ := r
      have hr := hall (side, a, p) (List.mem_cons_self _ _)
      have hstep := execute_trade_nonneg side a p bal ts hr.1 hr.2 hb hq
      exact ih _ _ hstep.1 hstep.2 fun r2 hr2 => hall r2 (List.mem_cons_of_mem _ hr2)

/-- C4: in simulated mode, for every sequence of executed trades with
non-negative amounts and prices (starting from non-negative balances), both
entries of the balances map are non-negative after every step, i.e. after
every prefix of the sequence. -/
theorem claim_C4_balances_nonneg (bal : Balances) (ts : List Trade)
    (reqs : List (Side × ℚ × ℚ))
    (hb : 0 ≤ bal.base) (hq : 0 ≤ bal.quote)
    (hreqs : ∀ r ∈ reqs, 0 ≤ r.2.1 ∧ 0 ≤ r.2.2) :
    ∀ pre suf, reqs = pre ++ suf →
      0 ≤ (exec_trades bal ts pre).1.base ∧
        0 ≤ (exec_trades bal ts pre).1.quote := by
  intro pre suf hsplit
  refine exec_trades_nonneg pre bal ts hb hq fun r hr => ?_
  exact hreqs r (by rw [hsplit]; exact List.mem_append_left _ hr)

/-- Witness for C4 at a concrete input: selling the whole base balance at
price 1/2. -/
theorem claim_C4_balances_nonneg_witness :
    0 ≤ (exec_trades ⟨1000, 0⟩ [] [(Side.sell, 1000, 1/2)]).1.base ∧
      0 ≤ (exec_trades ⟨1000, 0⟩ [] [(Side.sell, 1000, 1/2)]).1.quote :=
  claim_C4_balances_nonneg ⟨1000, 0⟩ [] [(Side.sell, 1000, 1/2)]
    (by norm_num) (by norm_num)
    (by intro r hr; rw [List.mem_singleton] at hr; subst hr; norm_num)
    [(Side.sell, 1000, 1/2)] [] rfl

/-- C2 (amended): for a structured (dict) payload the parser reads field
`action` (fallback `signal`) and uppercases it; any non-empty result is
enqueued verbatim, with no {BUY,LONG}/{SELL,SHORT} mapping and no
validation, so `LONG` stays `LONG` and kinds other than BUY or SELL can be
enqueued; only an empty/missing `action` and `signal` are rejected. A signal
string other than "BUY"/"SELL" is never acted on by the engine. -/
theorem claim_C2_structured_parse (d : DictPayload) (f : ℚ) (s : BotState)
    (p : Option ℚ) :
    process_dict_signal d =
      (if py_upper (d.action.getD "") ≠ "" then some (py_upper (d.action.getD ""))
       else if py_upper (d.signal.getD "") ≠ "" then some (py_upper (d.signal.getD ""))
       else none) ∧
    process_dict_signal ⟨some "long", none⟩ = some "LONG" ∧
    process_dict_signal ⟨some "hold", none⟩ = some "HOLD" ∧
    (∀ sig, sig ≠ "BUY" → sig ≠ "SELL" → (engine_step f s sig p).1 = s) := by
  have hlong : process_dict_signal ⟨some "long", none⟩ = some "LONG" := rfl
  have hhold : process_dict_signal ⟨some "hold", none⟩ = some "HOLD" := rfl
  refine ⟨?_, hlong, hhold, ?_⟩
  · unfold process_dict_signal
    by_cases h1 : py_upper (d.action.getD "") = ""
    · simp [h1]
    · simp [h1]
  · intro sig hb hs
    cases p with
    | none => rfl
    | some price => rw [engine_step_unknown_sig f s sig price hb hs]

/-- Witness for C2 at a concrete input: the enqueued kind "HOLD" leaves the
engine state unchanged. -/
theorem claim_C2_structured_parse_witness :
    (engine_step 1 (init_state 1) "HOLD" (some 1)).1 = init_state 1 :=
  (claim_C2_structured_parse ⟨some "hold", none⟩ 1 (init_state 1) (some 1)).2.2.2
    "HOLD" (by simp) (by simp)

/-- C2 counterexample to the claim as stated: the structured payload
`{"action": "hold"}` is not rejected — the parser yields the kind "HOLD",
which is neither BUY nor SELL, and `{"action": "long"}` yields "LONG"
rather than the claimed mapping to "BUY". -/
theorem claim_C2_counterexample :
    process_dict_signal ⟨some "hold", none⟩ = some "HOLD" ∧
    "HOLD" ≠ "BUY" ∧ "HOLD" ≠ "SELL" ∧
    process_dict_signal ⟨some "long", none⟩ ≠ some "BUY" := by
  have hlong : process_dict_signal ⟨some "long", none⟩ = some "LONG" := rfl
  have hhold : process_dict_signal ⟨some "hold", none⟩ = some "HOLD" := rfl
  refine ⟨hhold, by simp, by simp, ?_⟩
  rw [hlong]
  simp

/-- C9: for an actionable SELL (a "SELL" signal while `last_action` is BUY),
the amount sold is exactly `min(fixed_amount, base_balance)`; when that
minimum is ≤ 0 the trade is skipped with no state change, and on success
`last_action` becomes SELL and `last_sold_amount`/`last_sell_price` record
the executed amount and price (the trade record carries that amount). -/
theorem claim_C9_actionable_sell (f : ℚ) (s : BotState) (price : ℚ)
    (hlast : s.lastAction = Side.buy) :
    (min f s.balances.base ≤ 0 →
      engine_step f s "SELL" (some price) = (s, Outcome.insufficientBase)) ∧
    (0 < min f s.balances.base →
      engine_step f s "SELL" (some price) =
        ({ s with
            balances := ⟨s.balances.base - min f s.balances.base,
                         s.balances.quote + min f s.balances.base * price⟩,
            trades := s.trades ++ [⟨Side.sell, price, min f s.balances.base,
                                    min f s.balances.base * price⟩],
            lastAction := Side.sell,
            lastSoldAmount := some (min f s.balances.base),
            lastSellPrice := some price }, Outcome.sold)) := by
  rw [engine_step_sell_sig f s price hlast, step_sell_eq]
  constructor
  · intro h; rw [if_neg (not_lt.mpr h)]
  · intro h; rw [if_pos h]

/-- Witness for C9 at a concrete input: the initial state sells
`min(1000, 1000) = 1000` at price 1/2. -/
theorem claim_C9_actionable_sell_witness :
    (engine_step 1000 (init_state 1000) "SELL" (some (1/2))).2 = Outcome.sold := by
  rw [(claim_C9_actionable_sell 1000 (init_state 1000) (1/2) rfl).2
    (by norm_num [init_state])]

/-- C10: the balance lookup returns 0 both when the currency is absent from
the simulated balances dict and when the real-mode fetch fails, so the two
are indistinguishable to the engine; a SELL directive arriving with base
balance 0 takes the insufficient-balance skip path (not the separate
price-unavailable drop path), and a BUY directive with quote balance 0 and a
positive required cost takes the insufficient-quote skip path. -/
theorem claim_C10_zero_balance (m : List (String × ℚ)) (c : String) (f : ℚ)
    (s : BotState) (price : ℚ)
    (habs : dict_get m c = none) (hlast : s.lastAction = Side.buy)
    (hbase : s.balances.base = 0) :
    get_balance_demo m c = 0 ∧
    get_balance_real none = 0 ∧
    get_balance_demo m c = get_balance_real none ∧
    engine_step f s "SELL" (some price) = (s, Outcome.insufficientBase) ∧
    (∀ s2 : BotState, s2.lastAction = Side.sell → s2.balances.quote = 0 →
      truthy s2.lastSoldAmount = true → 0 < s2.lastSoldAmount.getD 0 * price →
      engine_step f s2 "BUY" (some price) = (s2, Outcome.insufficientQuote)) := by
  have h1 : get_balance_demo m c = 0 := by rw [get_balance_demo, habs]; rfl
  refine ⟨h1, rfl, by rw [h1]; rfl, ?_, ?_⟩
  · rw [engine_step_sell_sig f s price hlast, step_sell_eq,
      if_neg (by rw [hbase]; exact not_lt.mpr (min_le_right f 0))]
  · intro s2 hlast2 hquote ht hcost
    rw [engine_step_buy_sig f s2 price hlast2, step_buy_eq, if_pos ht,
      if_neg (by rw [hquote]; exact not_le.mpr hcost)]

/-- Witness for C10 at a concrete input: looking up "XRP" in a dict holding
only "USDT", and a SELL arriving with base balance 0. -/
theorem claim_C10_zero_balance_witness :
    get_balance_demo [("USDT", 5)] "XRP" = 0 ∧
    (engine_step 1000 (init_state 0) "SELL" (some 1)) = (init_state 0, Outcome.insufficientBase) := by
  have h := claim_C10_zero_balance [("USDT", 5)] "XRP" 1000 (init_state 0) 1
    (by simp [dict_get]) rfl rfl
  exact ⟨h.1, h.2.2.2.1⟩

/-- Any loop-body branch that executes no trade leaves the entire engine
state (including `last_action`, the pending sell amount/price, balances,
profit and history) unchanged. -/
lemma engine_step_no_trade_frame (f : ℚ) (s : BotState) (sig : String)
    (p : Option ℚ)
    (hb : (engine_step f s sig p).2 ≠ Outcome.bought)
    (hs : (engine_step f s sig p).2 ≠ Outcome.sold) :
    (engine_step f s sig p).1 = s := by
  cases p with
  | none => rfl
  | some price =>
    by_cases g1 : sig = "BUY" ∧ s.lastAction = Side.sell
    · rw [engine_step_some, if_pos g1, step_buy_eq] at hb ⊢
      by_cases ht : truthy s.lastSoldAmount = true
      · by_cases hq : s.balances.quote ≥ s.lastSoldAmount.getD 0 * price
        · rw [if_pos ht, if_pos hq] at hb; simp at hb
        · rw [if_pos ht, if_neg hq]
      · rw [if_neg ht]
    · rw [engine_step_some, if_neg g1] at hs ⊢
      by_cases g2 : sig = "SELL" ∧ s.lastAction = Side.buy
      · rw [if_pos g2, step_sell_eq] at hs ⊢
        by_cases hmin : 0 < min f s.balances.base
        · rw [if_pos hmin] at hs; simp at hs
        · rw [if_neg hmin]
      · rw [if_neg g2]

/-- The loop emits exactly one outcome per dequeued signal: every directive
is consumed exactly once, never retried or requeued. -/
lemma engine_run_length (f : ℚ) (dirs : List (String × Option ℚ)) :
    ∀ s, (engine_run f s dirs).2.length = dirs.length := by
  induction dirs with
  | nil => intro s; rfl
  | cons d rest ih =>
      intro s
      obtain ⟨sig, p⟩ := d
      rw [engine_run_cons]
      simp [ih]

/-- C8: a directive whose processing ends in a skipped, ignored, or
insufficient-balance outcome (duplicate signal, unavailable price,
insufficient funds, amount ≤ 0, or no recorded previous sell amount) leaves
`last_action`, `last_sold_amount`, `last_sell_price`, balances and
`total_profit` all unchanged, and every directive produces exactly one
outcome — it is consumed once and never retried. -/
theorem claim_C8_skip_frame (f : ℚ) (s : BotState) (sig : String)
    (p : Option ℚ) (dirs : List (String × Option ℚ))
    (h : (engine_step f s sig p).2 = Outcome.ignored ∨
         (engine_step f s sig p).2 = Outcome.priceUnavailable ∨
         (engine_step f s sig p).2 = Outcome.insufficientQuote ∨
         (engine_step f s sig p).2 = Outcome.insufficientBase ∨
         (engine_step f s sig p).2 = Outcome.noPrevAmount) :
    (engine_step f s sig p).1 = s ∧
    (engine_run f s dirs).2.length = dirs.length := by
  refine ⟨engine_step_no_trade_frame f s sig p ?_ ?_, engine_run_length f dirs s⟩
  · rcases h with h | h | h | h | h <;> rw [h] <;> simp
  · rcases h with h | h | h | h | h <;> rw [h] <;> simp

/-- Witness for C8 at a concrete input: a duplicate BUY right after startup
(`last_action` is already BUY) is ignored and changes nothing. -/
theorem claim_C8_skip_frame_witness :
    (engine_step 1000 (init_state 1000) "BUY" (some 1)).1 = init_state 1000 ∧
    (engine_run 1000 (init_state 1000) ([("BUY", some 1)])).2.length =
      [("BUY", some 1)].length :=
  claim_C8_skip_frame 1000 (init_state 1000) "BUY" (some 1) [("BUY", some 1)]
    (Or.inl (by rw [engine_step_buy_dup 1000 (init_state 1000) 1 rfl]))

/-- C1 (amended): for every actionable BUY whose trade succeeds, the engine
sets `last_action` to BUY and adds the computed profit to `total_profit`
when `last_sell_price` is truthy (set and nonzero) — but it does NOT clear
`last_sold_amount` or `last_sell_price`: both keep their values from the
previous SELL until the next successful SELL overwrites them. -/
theorem claim_C1_buyback_state (f : ℚ) (s : BotState) (sig : String)
    (p : Option ℚ) (h : (engine_step f s sig p).2 = Outcome.bought) :
    s.lastAction = Side.sell ∧
    (engine_step f s sig p).1.lastAction = Side.buy ∧
    (engine_step f s sig p).1.lastSoldAmount = s.lastSoldAmount ∧
    (engine_step f s sig p).1.lastSellPrice = s.lastSellPrice ∧
    (truthy s.lastSellPrice = true →
      (engine_step f s sig p).1.totalProfit =
        s.totalProfit + calculate_profit (s.lastSellPrice.getD 0) (p.getD 0)
          (s.lastSoldAmount.getD 0)) ∧
    (truthy s.lastSellPrice = false →
      (engine_step f s sig p).1.totalProfit = s.totalProfit) := by
  cases p with
  | none => simp [engine_step_none] at h
  | some price =>
    by_cases g1 : sig = "BUY" ∧ s.lastAction = Side.sell
    · rw [engine_step_some, if_pos g1, step_buy_eq] at h ⊢
      by_cases ht : truthy s.lastSoldAmount = true
      · by_cases hq : s.balances.quote ≥ s.lastSoldAmount.getD 0 * price
        · rw [if_pos ht, if_pos hq]
          refine ⟨g1.2, rfl, rfl, rfl, fun hp => ?_, fun hp => ?_⟩
          · simp [hp]
          · simp [hp]
        · rw [if_pos ht, if_neg hq] at h; simp at h
      · rw [if_neg ht] at h; simp at h
    · rw [engine_step_some, if_neg g1] at h
      by_cases g2 : sig = "SELL" ∧ s.lastAction = Side.buy
      · rw [if_pos g2, step_sell_eq] at h
        by_cases hmin : 0 < min f s.balances.base
        · rw [if_pos hmin] at h; simp at h
        · rw [if_neg hmin] at h; simp at h
      · rw [if_neg g2] at h; simp at h

/-- Concrete run shared by several claims: from the demo start state, a SELL
at price 1/2 sells the whole 1000 base units. -/
lemma run_scenario_sell :
    engine_step 1000 (init_state 1000) "SELL" (some (1/2)) =
      (⟨Side.sell, some 1000, some (1/2), ⟨0, 500⟩, 0,
        [⟨Side.sell, 1/2, 1000, 500⟩]⟩, Outcome.sold) := by
  rw [engine_step_sell_sig _ _ _ rfl, step_sell_eq]
  norm_num [init_state]

/-- Concrete run shared by several claims: after that SELL, a BUY at price
2/5 buys the 1000 units back for 400 and books 100 profit. -/
lemma run_scenario_sell_buy :
    engine_run 1000 (init_state 1000) [("SELL", some (1/2)), ("BUY", some (2/5))] =
      (⟨Side.buy, some 1000, some (1/2), ⟨1000, 100⟩, 100,
        [⟨Side.sell, 1/2, 1000, 500⟩, ⟨Side.buy, 2/5, 1000, 400⟩]⟩,
       [Outcome.sold, Outcome.bought]) := by
  have h2 : engine_step 1000 (⟨Side.sell, some 1000, some (1/2), ⟨0, 500⟩, 0,
        [⟨Side.sell, 1/2, 1000, 500⟩]⟩ : BotState) "BUY" (some (2/5)) =
      (⟨Side.buy, some 1000, some (1/2), ⟨1000, 100⟩, 100,
        [⟨Side.sell, 1/2, 1000, 500⟩, ⟨Side.buy, 2/5, 1000, 400⟩]⟩, Outcome.bought) := by
    rw [engine_step_buy_sig _ _ _ rfl, step_buy_eq]
    norm_num [truthy, calculate_profit]
  rw [engine_run_cons, run_scenario_sell]
  rw [engine_run_cons, h2]
  rfl

/-- C1 counterexample to the claim as stated: in the concrete SELL-then-BUY
run the buy-back succeeds (outcome `bought`), yet afterwards
`last_sold_amount` still holds 1000 and `last_sell_price` still holds 1/2 —
the values from the previous SELL are not cleared. -/
theorem claim_C1_counterexample :
    (engine_run 1000 (init_state 1000)
        [("SELL", some (1/2)), ("BUY", some (2/5))]).2 =
      [Outcome.sold, Outcome.bought] ∧
    (engine_run 1000 (init_state 1000)
        [("SELL", some (1/2)), ("BUY", some (2/5))]).1.lastSoldAmount = some 1000 ∧
    (engine_run 1000 (init_state 1000)
        [("SELL", some (1/2)), ("BUY", some (2/5))]).1.lastSellPrice = some (1/2) := by
  rw [run_scenario_sell_buy]
  exact ⟨rfl, rfl, rfl⟩

/-- Witness for C1 at a concrete input: the successful buy-back after the
concrete SELL keeps `last_sold_amount` unchanged. -/
theorem claim_C1_buyback_state_witness :
    (engine_step 1000 (⟨Side.sell, some 1000, some (1/2), ⟨0, 500⟩, 0,
        [⟨Side.sell, 1/2, 1000, 500⟩]⟩ : BotState) "BUY" (some (2/5))).1.lastSoldAmount
      = some 1000 :=
  (claim_C1_buyback_state 1000 ⟨Side.sell, some 1000, some (1/2), ⟨0, 500⟩, 0,
      [⟨Side.sell, 1/2, 1000, 500⟩]⟩ "BUY" (some (2/5))
    (by rw [engine_step_buy_sig _ _ _ rfl, step_buy_eq]
        norm_num [truthy, calculate_profit])).2.2.1

/-- Appending one trade record bumps exactly the matching side's count. -/
lemma countSide_append (side : Side) (ts : List Trade) (t : Trade) :
    countSide side (ts ++ [t]) =
      countSide side ts + (if t.side = side then 1 else 0) := by
  by_cases h : t.side = side
  · simp [countSide, List.filter_append, List.filter_cons, h]
  · simp [countSide, List.filter_append, List.filter_cons, h]

/-- The alternation invariant maintained by the trading loop: while
`last_action` is BUY the executed buy and sell counts are equal, and while
it is SELL the sell count is exactly one ahead. -/
def altInv (s : BotState) : Prop :=
  (s.lastAction = Side.buy →
    countSide Side.buy s.trades = countSide Side.sell s.trades) ∧
  (s.lastAction = Side.sell →
    countSide Side.sell s.trades = countSide Side.buy s.trades + 1)

/-- One loop iteration preserves the alternation invariant. -/
lemma engine_step_altInv (f : ℚ) (s : BotState) (sig : String) (p : Option ℚ)
    (h : altInv s) : altInv (engine_step f s sig p).1 := by
  cases p with
  | none => exact h
  | some price =>
    by_cases g1 : sig = "BUY" ∧ s.lastAction = Side.sell
    · rw [engine_step_some, if_pos g1, step_buy_eq]
      by_cases ht : truthy s.lastSoldAmount = true
      · by_cases hq : s.balances.quote ≥ s.lastSoldAmount.getD 0 * price
        · rw [if_pos ht, if_pos hq]
          have hcount := h.2 g1.2
          refine ⟨fun _ => ?_, fun hc => by simp at hc⟩
          simp only [countSide_append]
          simp
          omega
        · rw [if_pos ht, if_neg hq]; exact h
      · rw [if_neg ht]; exact h
    · rw [engine_step_some, if_neg g1]
      by_cases g2 : sig = "SELL" ∧ s.lastAction = Side.buy
      · rw [if_pos g2, step_sell_eq]
        by_cases hmin : 0 < min f s.balances.base
        · rw [if_pos hmin]
          have hcount := h.1 g2.2
          refine ⟨fun hc => by simp at hc, fun _ => ?_⟩
          simp only [countSide_append]
          simp
          omega
        · rw [if_neg hmin]; exact h
      · rw [if_neg g2]; exact h

/-- Any run of the loop preserves the alternation invariant. -/
lemma engine_run_altInv (f : ℚ) (dirs : List (String × Option ℚ)) :
    ∀ s, altInv s → altInv (engine_run f s dirs).1 := by
  induction dirs with
  | nil => exact fun s h => h
  | cons d rest ih =>
      intro s h
      obtain ⟨sig, p⟩ := d
      rw [engine_run_cons]
      exact ih _ (engine_step_altInv f s sig p h)

/-- While `last_action` is BUY, no iteration can execute a buy trade: the
buy count is unchanged. -/
lemma engine_step_countBuy (f : ℚ) (s : BotState) (sig : String)
    (p : Option ℚ) (h : s.lastAction = Side.buy) :
    countSide Side.buy (engine_step f s sig p).1.trades =
      countSide Side.buy s.trades := by
  cases p with
  | none => rfl
  | some price =>
    have g1 : ¬(sig = "BUY" ∧ s.lastAction = Side.sell) := by
      rintro ⟨-, hc⟩; rw [h] at hc; simp at hc
    rw [engine_step_some, if_neg g1]
    by_cases g2 : sig = "SELL" ∧ s.lastAction = Side.buy
    · rw [if_pos g2, step_sell_eq]
      by_cases hmin : 0 < min f s.balances.base
      · rw [if_pos hmin]; simp [countSide_append]
      · rw [if_neg hmin]
    · rw [if_neg g2]

/-- While `last_action` is SELL, no iteration can execute a sell trade: the
sell count is unchanged. -/
lemma engine_step_countSell (f : ℚ) (s : BotState) (sig : String)
    (p : Option ℚ) (h : s.lastAction = Side.sell) :
    countSide Side.sell (engine_step f s sig p).1.trades =
      countSide Side.sell s.trades := by
  cases p with
  | none => rfl
  | some price =>
    have g2 : ¬(sig = "SELL" ∧ s.lastAction = Side.buy) := by
      rintro ⟨-, hc⟩; rw [h] at hc; simp at hc
    rw [engine_step_some]
    by_cases g1 : sig = "BUY" ∧ s.lastAction = Side.sell
    · rw [if_pos g1, step_buy_eq]
      by_cases ht : truthy s.lastSoldAmount = true
      · by_cases hq : s.balances.quote ≥ s.lastSoldAmount.getD 0 * price
        · rw [if_pos ht, if_pos hq]; simp [countSide_append]
        · rw [if_pos ht, if_neg hq]
      · rw [if_neg ht]
    · rw [if_neg g1, if_neg g2]

/-- C3: from the initial state (`last_action = BUY`), a buy executes only
while `last_action` is SELL and a sell only while it is BUY, so over any
signal sequence the executed buy and sell counts never differ by more
than 1. -/
theorem claim_C3_alternating (f : ℚ) (dirs : List (String × Option ℚ)) :
    (countSide Side.buy (engine_run f (init_state f) dirs).1.trades ≤
       countSide Side.sell (engine_run f (init_state f) dirs).1.trades + 1 ∧
     countSide Side.sell (engine_run f (init_state f) dirs).1.trades ≤
       countSide Side.buy (engine_run f (init_state f) dirs).1.trades + 1) ∧
    (∀ s sig p, s.lastAction = Side.buy →
       countSide Side.buy (engine_step f s sig p).1.trades =
         countSide Side.buy s.trades) ∧
    (∀ s sig p, s.lastAction = Side.sell →
       countSide Side.sell (engine_step f s sig p).1.trades =
         countSide Side.sell s.trades) := by
  refine ⟨?_, fun s sig p h => engine_step_countBuy f s sig p h,
          fun s sig p h => engine_step_countSell f s sig p h⟩
  have hinv : altInv (engine_run f (init_state f) dirs).1 :=
    engine_run_altInv f dirs (init_state f)
      ⟨fun _ => rfl, fun hc => by simp [init_state] at hc⟩
  obtain ⟨h1, h2⟩ := hinv
  cases hside : (engine_run f (init_state f) dirs).1.lastAction with
  | buy => have := h1 hside; omega
  | sell => have := h2 hside; omega

/-- Witness for C3 at a concrete input: a BUY arriving right after startup
(while `last_action` is BUY) executes no buy trade. -/
theorem claim_C3_alternating_witness :
    countSide Side.buy (engine_step 1000 (init_state 1000) "BUY" (some 1)).1.trades =
      countSide Side.buy (init_state 1000).trades :=
  (claim_C3_alternating 1000 []).2.1 (init_state 1000) "BUY" (some 1) rfl

/-- C6 (amended): the concrete demo scenario behaves exactly as stated
(SELL 1000 at 0.50, then BUY back at 0.40, booking 100 = 1000*(0.50-0.40)
profit); and in general a successful SELL at a nonzero price P1 followed by
a matching successful BUY at price P2 increases `total_profit` by exactly
`A*(P1-P2)` with `A = min(fixed_amount, baseBalance)` the executed sell
amount. (For P1 = 0 the profit step is skipped by Python truthiness.) -/
theorem claim_C6_profit_roundtrip (f P1 P2 : ℚ) (s : BotState)
    (hlast : s.lastAction = Side.buy) (hP1 : P1 ≠ 0)
    (hsold : (engine_step f s "SELL" (some P1)).2 = Outcome.sold)
    (hbought : (engine_step f (engine_step f s "SELL" (some P1)).1 "BUY"
        (some P2)).2 = Outcome.bought) :
    (engine_step f (engine_step f s "SELL" (some P1)).1 "BUY"
        (some P2)).1.totalProfit
      = s.totalProfit + min f s.balances.base * (P1 - P2) ∧
    (engine_run 1000 (init_state 1000) [("SELL", some (1/2))]).1 =
      ⟨Side.sell, some 1000, some (1/2), ⟨0, 500⟩, 0,
        [⟨Side.sell, 1/2, 1000, 500⟩]⟩ ∧
    engine_run 1000 (init_state 1000) [("SELL", some (1/2)), ("BUY", some (2/5))] =
      (⟨Side.buy, some 1000, some (1/2), ⟨1000, 100⟩, 100,
        [⟨Side.sell, 1/2, 1000, 500⟩, ⟨Side.buy, 2/5, 1000, 400⟩]⟩,
       [Outcome.sold, Outcome.bought]) ∧
    (100 : ℚ) = 1000 * (1/2 - 2/5) := by
  refine ⟨?_, ?_, run_scenario_sell_buy, by norm_num⟩
  · by_cases hmin : 0 < min f s.balances.base
    · have hAne : min f s.balances.base ≠ 0 := ne_of_gt hmin
      set S1 : BotState :=
        { s with
            balances := ⟨s.balances.base - min f s.balances.base,
                         s.balances.quote + min f s.balances.base * P1⟩,
            trades := s.trades ++ [⟨Side.sell, P1, min f s.balances.base,
                                    min f s.balances.base * P1⟩],
            lastAction := Side.sell,
            lastSoldAmount := some (min f s.balances.base),
            lastSellPrice := some P1 } with hS1def
      have h1 : (engine_step f s "SELL" (some P1)).1 = S1 := by
        rw [engine_step_sell_sig f s P1 hlast, step_sell_eq, if_pos hmin]
      have hla : S1.lastAction = Side.sell := rfl
      rw [h1] at hbought ⊢
      rw [engine_step_buy_sig f S1 P2 hla, step_buy_eq] at hbought ⊢
      have ht : truthy S1.lastSoldAmount = true := by
        show truthy (some (min f s.balances.base)) = true
        simp [truthy, hAne]
      have htp : truthy S1.lastSellPrice = true := by
        show truthy (some P1) = true
        simp [truthy, hP1]
      rw [if_pos ht] at hbought ⊢
      by_cases hq : S1.balances.quote ≥ S1.lastSoldAmount.getD 0 * P2
      · rw [if_pos hq]
        have hgd1 : S1.lastSellPrice.getD 0 = P1 := rfl
        have hgd2 : S1.lastSoldAmount.getD 0 = min f s.balances.base := rfl
        have hgd3 : S1.totalProfit = s.totalProfit := rfl
        simp only [htp, if_true]
        show S1.totalProfit +
            calculate_profit (S1.lastSellPrice.getD 0) P2 (S1.lastSoldAmount.getD 0)
          = s.totalProfit + min f s.balances.base * (P1 - P2)
        rw [hgd1, hgd2, hgd3, calculate_profit]
        ring
      · rw [if_neg hq] at hbought; simp at hbought
    · exfalso
      rw [engine_step_sell_sig f s P1 hlast, step_sell_eq, if_neg hmin] at hsold
      simp at hsold
  · rw [engine_run_cons, run_scenario_sell]
    rfl

/-- Witness for C6 at a concrete input: the concrete scenario instantiates
the general round-trip (P1 = 1/2, P2 = 2/5, A = min 1000 1000). -/
theorem claim_C6_profit_roundtrip_witness :
    (engine_step 1000 (engine_step 1000 (init_state 1000) "SELL" (some (1/2))).1
        "BUY" (some (2/5))).1.totalProfit
      = (init_state 1000).totalProfit +
          min 1000 (init_state 1000).balances.base * (1/2 - 2/5) :=
  (claim_C6_profit_roundtrip 1000 (1/2) (2/5) (init_state 1000) rfl (by norm_num)
    (by rw [run_scenario_sell])
    (by rw [run_scenario_sell]
        show (engine_step 1000 (⟨Side.sell, some 1000, some (1/2), ⟨0, 500⟩, 0,
            [⟨Side.sell, 1/2, 1000, 500⟩]⟩ : BotState) "BUY" (some (2/5))).2 =
          Outcome.bought
        rw [engine_step_buy_sig _ _ _ rfl, step_buy_eq]
        norm_num [truthy])).1

/-- C6 counterexample to the claim's general statement: in a run reachable
from the demo start state, a successful SELL at price 0 followed by a
matching successful BUY at price 2/5 leaves `total_profit` at 400 (the
profit step is skipped because `last_sell_price = 0` is falsy), while the
claim demands an increase of 1000*(0 - 2/5) = -400. -/
theorem claim_C6_counterexample :
    (engine_run 1000 (init_state 1000)
        [("SELL", some 1), ("BUY", some (3/5)), ("SELL", some 0),
         ("BUY", some (2/5))]).2
      = [Outcome.sold, Outcome.bought, Outcome.sold, Outcome.bought] ∧
    (engine_run 1000 (init_state 1000)
        [("SELL", some 1), ("BUY", some (3/5)), ("SELL", some 0)]).1.totalProfit
      = 400 ∧
    (engine_run 1000 (init_state 1000)
        [("SELL", some 1), ("BUY", some (3/5)), ("SELL", some 0),
         ("BUY", some (2/5))]).1.totalProfit = 400 ∧
    (400 : ℚ) ≠ 400 + 1000 * ((0 : ℚ) - 2/5) := by
  have h1 : engine_step 1000 (init_state 1000) "SELL" (some 1) =
      (⟨Side.sell, some 1000, some 1, ⟨0, 1000⟩, 0,
        [⟨Side.sell, 1, 1000, 1000⟩]⟩, Outcome.sold) := by
    rw [engine_step_sell_sig _ _ _ rfl, step_sell_eq]
    norm_num [init_state]
  have h2 : engine_step 1000 (⟨Side.sell, some 1000, some 1, ⟨0, 1000⟩, 0,
        [⟨Side.sell, 1, 1000, 1000⟩]⟩ : BotState) "BUY" (some (3/5)) =
      (⟨Side.buy, some 1000, some 1, ⟨1000, 400⟩, 400,
        [⟨Side.sell, 1, 1000, 1000⟩, ⟨Side.buy, 3/5, 1000, 600⟩]⟩,
       Outcome.bought) := by
    rw [engine_step_buy_sig _ _ _ rfl, step_buy_eq]
    norm_num [truthy, calculate_profit]
  have h3 : engine_step 1000 (⟨Side.buy, some 1000, some 1, ⟨1000, 400⟩, 400,
        [⟨Side.sell, 1, 1000, 1000⟩, ⟨Side.buy, 3/5, 1000, 600⟩]⟩ : BotState)
        "SELL" (some 0) =
      (⟨Side.sell, some 1000, some 0, ⟨0, 400⟩, 400,
        [⟨Side.sell, 1, 1000, 1000⟩, ⟨Side.buy, 3/5, 1000, 600⟩,
         ⟨Side.sell, 0, 1000, 0⟩]⟩, Outcome.sold) := by
    rw [engine_step_sell_sig _ _ _ rfl, step_sell_eq]
    norm_num
  have h4 : engine_step 1000 (⟨Side.sell, some 1000, some 0, ⟨0, 400⟩, 400,
        [⟨Side.sell, 1, 1000, 1000⟩, ⟨Side.buy, 3/5, 1000, 600⟩,
         ⟨Side.sell, 0, 1000, 0⟩]⟩ : BotState) "BUY" (some (2/5)) =
      (⟨Side.buy, some 1000, some 0, ⟨1000, 0⟩, 400,
        [⟨Side.sell, 1, 1000, 1000⟩, ⟨Side.buy, 3/5, 1000, 600⟩,
         ⟨Side.sell, 0, 1000, 0⟩, ⟨Side.buy, 2/5, 1000, 400⟩]⟩,
       Outcome.bought) := by
    rw [engine_step_buy_sig _ _ _ rfl, step_buy_eq]
    norm_num [truthy]
  refine ⟨?_, ?_, ?_, by norm_num⟩
  · simp only [engine_run_cons, h1, h2, h3, h4]
    rfl
  · simp only [engine_run_cons, h1, h2, h3]
    rfl
  · simp only [engine_run_cons, h1, h2, h3, h4]
    rfl
